/-
  Verification of the HEX-AVG antivirus tool (BluHExH/HEX-AVG-ANTIVIRUS).

  Shallow embedding of the Python source into Lean 4.  Each definition is
  translated from the corresponding source function; machine floats are
  modelled as exact rationals/reals, Python dictionaries whose key sets
  matter are modelled as association lists (a missing key is an explicit
  lookup failure, mirroring the Python KeyError), and fallible operations
  return `Except`.
-/
import Mathlib

namespace HexAvg

/-! ## Configuration

`config.py` (class `HEXAVGConfig`) is imported by every core module but is
absent from the analyzed source tree; the spec (§3, §4.1) records its
fields.  The constants a claim needs are therefore kept symbolic
(parameters of the embedded functions) rather than given invented values. -/

/-- Modelled from the spec: `config.py` / `HEXAVGConfig` is missing from the
analyzed source; the spec (§3) lists "default/min/max thread counts" among
the configuration fields, with no concrete values.  The three counts are
carried symbolically. -/
structure ThreadConfig where
  minThreads : Int
  maxThreads : Int
  defaultThreads : Int
deriving Repr, DecidableEq

/-- The canonical EICAR test string, `HEXAVGConfig.EICAR_STRING`
(spec §6 gives it byte-exact). -/
def eicarString : String :=
  "X5O!P%@AP[4\\PZX54(P^)7CC)7\x7d$EICAR-STANDARD-ANTIVIRUS-TEST-FILE!$H+H*"

/-! ## Thread manager (`src/core/multithreading.py`)

`ThreadManager.__init__` (lines 17-36):
```
self.max_workers = max_workers or HEXAVGConfig.DEFAULT_THREADS
self.max_workers = max(HEXAVGConfig.MIN_THREADS,
                       min(self.max_workers, HEXAVGConfig.MAX_THREADS))
```
The Python `or` falls back to the default both when `max_workers` is `None`
and when it is the falsy integer `0`. -/

/-- Embeds `ThreadManager.__init__`: the effective worker-pool size computed from an
optional requested thread count. -/
def effectiveMaxWorkers (cfg : ThreadConfig) (requested : Option Int) : Int :=
  let r : Int :=
    match requested with
    | none => cfg.defaultThreads
    | some t => if t = 0 then cfg.defaultThreads else t
  max cfg.minThreads (min r cfg.maxThreads)

/-! ## ML threat scorer (`src/detection/ml_scoring.py`) -/

/-- Embeds `MLThreatScorer.thresholds` (lines 38-42). -/
def mlThresholdBenign : ℚ := 3/10
def mlThresholdSuspicious : ℚ := 6/10
def mlThresholdMalicious : ℚ := 8/10

/-- Embeds `MLThreatScorer._classify` (lines 191-214), over any ordered field so
that the same definition serves the executable rational model and the
real-valued score produced by the sigmoid.  Returns the classification
label and the clamped confidence. -/
def mlClassify {α : Type} [LinearOrderedField α]
    [DecidableEq α] [∀ a b : α, Decidable (a ≤ b)]
    (mlScore : α) : String × α :=
  let tB : α := 3/10
  let tS : α := 6/10
  let tM : α := 8/10
  let raw : String × α :=
    if tM ≤ mlScore then
      ("malicious", (mlScore - tM) / (1 - tM))
    else if tS ≤ mlScore then
      ("suspicious", (mlScore - tS) / (tM - tS))
    else if tB ≤ mlScore then
      ("suspicious", (mlScore - tB) / (tS - tB))
    else
      ("benign", (tB - mlScore) / tB)
  (raw.1, max 0 (min 1 raw.2))

/-- Embeds `MLThreatScorer.feature_weights` (lines 28-35), as exact rationals. -/
def featureWeights : List (String × ℚ) :=
  [("entropy", 25/100),
   ("suspicious_strings", 20/100),
   ("extension_mismatch", 20/100),
   ("packer_detected", 15/100),
   ("file_size_anomaly", 10/100),
   ("rare_extension", 10/100)]

/-- Embeds `MLThreatScorer.rare_extensions` (lines 51-54). -/
def rareExtensions : List String :=
  [".vbs", ".js", ".wsf", ".ps1", ".bat", ".cmd", ".scr",
   ".pif", ".com", ".cpl", ".msc", ".jar", ".hta"]

/-- The six extracted features of `MLThreatScorer._extract_features`
(lines 120-168). -/
structure MLFeatures where
  entropy : ℚ
  suspiciousStrings : ℚ
  extensionMismatch : ℚ
  packerDetected : ℚ
  fileSizeAnomaly : ℚ
  rareExtension : ℚ
deriving Repr, DecidableEq

/-- Embeds `MLThreatScorer._extract_features`: each heuristic signal score is
normalized by its maximum (entropy /30, strings /25, mismatch /25,
packer /20); file-size anomaly is 0.8 below 1 KiB and 0.6 above 100 MiB;
rare-extension membership gives 1.0. -/
def extractFeatures (entropyScore stringsScore mismatchScore packerScore : ℚ)
    (fileSize : ℕ) (suffix : String) : MLFeatures :=
  { entropy := entropyScore / 30
    suspiciousStrings := stringsScore / 25
    extensionMismatch := mismatchScore / 25
    packerDetected := packerScore / 20
    fileSizeAnomaly :=
      if fileSize < 1024 then 8/10
      else if fileSize > 100 * 1024 * 1024 then 6/10
      else 0
    rareExtension := if suffix ∈ rareExtensions then 1 else 0 }

/-- The weighted sum inside `MLThreatScorer._calculate_ml_score`
(lines 170-185), before the sigmoid. -/
def mlWeightedSum (f : MLFeatures) : ℚ :=
  f.entropy * (25/100) + f.suspiciousStrings * (20/100)
    + f.extensionMismatch * (20/100) + f.packerDetected * (15/100)
    + f.fileSizeAnomaly * (10/100) + f.rareExtension * (10/100)

/-- Embeds `MLThreatScorer._sigmoid` (lines 187-189): `1 / (1 + e^(-x))`, on ℝ
(the Python float computation is modelled by exact real arithmetic, hence
not executable). -/
noncomputable def mlSigmoid (x : ℝ) : ℝ := 1 / (1 + Real.exp (-x))

/-- Embeds `MLThreatScorer._calculate_ml_score`: sigmoid of the weighted feature
sum (the returned `ml_score`). -/
noncomputable def mlScoreOf (f : MLFeatures) : ℝ :=
  mlSigmoid ((mlWeightedSum f : ℚ) : ℝ)

/-! ## Advanced heuristic engine (`src/detection/advanced_heuristic.py`)

The four signal-scoring functions take as input the quantities the Python
code computes from the file bytes (entropy value, detected magic-byte
type, distinct suspicious-string match count, packer-signature hit), and
return the point scores of the source bands. -/

/-- Embeds `AdvancedHeuristicEngine.benign_extensions` (lines 111-115). -/
def benignExtensions : List String :=
  [".txt", ".doc", ".docx", ".xls", ".xlsx", ".ppt", ".pptx",
   ".pdf", ".jpg", ".jpeg", ".png", ".gif", ".bmp", ".mp3", ".mp4",
   ".avi", ".mkv", ".zip", ".rar", ".7z", ".tar", ".gz", ".log"]

/-- Embeds `AdvancedHeuristicEngine.executable_extensions` (lines 104-108). -/
def executableExtensionsAH : List String :=
  [".exe", ".dll", ".sys", ".scr", ".com", ".pif", ".bat", ".cmd",
   ".vbs", ".js", ".jar", ".msi", ".cpl", ".app", ".elf", ".bin",
   ".sh", ".bash", ".py", ".pl", ".rb", ".php", ".ps1"]

/-- Embeds `AdvancedHeuristicEngine._analyze_entropy` (lines 181-228): the band
score assigned to the Shannon entropy value `h` of the first 1 MiB
(`dataLen` bytes were read; inputs under 256 bytes score 0). -/
def entropyScore (dataLen : ℕ) (h : ℚ) : ℕ :=
  if dataLen < 256 then 0
  else if 15/2 ≤ h then 30
  else if 7 ≤ h then 25
  else if 13/2 ≤ h then 15
  else if 11/2 ≤ h then 5
  else 0

/-- Embeds `AdvancedHeuristicEngine._check_extension_mismatch` (lines 230-280):
`actualType` is the magic-byte file type (`None` when no signature prefix
matched), `ext` the lowercased extension. -/
def mismatchScore (actualType : Option String) (ext : String) : ℕ :=
  match actualType with
  | none => 0
  | some t =>
    if (t = "exe" ∨ t = "elf") ∧ ext ∈ benignExtensions then 25
    else if t = "zip" ∧ ext ∈ [".jpg", ".jpeg", ".png", ".gif"] then 20
    else if t = "txt" ∧ ext ∈ executableExtensionsAH then 10
    else 0

/-- Embeds `AdvancedHeuristicEngine._detect_suspicious_strings`
(lines 282-328): `matchCount` is the number of distinct matches of the
suspicious-pattern library (0 exactly when no pattern matched; the final
`else 5` branch of the source is kept although it is unreachable). -/
def stringsScore (matchCount : ℕ) : ℕ :=
  if matchCount = 0 then 0
  else if 10 ≤ matchCount then 25
  else if 5 ≤ matchCount then 20
  else if 3 ≤ matchCount then 15
  else if 1 ≤ matchCount then 10
  else 5

/-- Embeds `AdvancedHeuristicEngine._detect_packer` (lines 330-363):
`packerFound` says whether a known packer byte signature occurs in the
first 1 KiB; otherwise an entropy signal of at least 20 points yields the
generic 15-point indicator. -/
def packerScore (packerFound : Bool) (dataLen : ℕ) (h : ℚ) : ℕ :=
  if packerFound then 20
  else if 20 ≤ entropyScore dataLen h then 15
  else 0

/-- Embeds the aggregation of `AdvancedHeuristicEngine.analyze_file`
(lines 141-170): the four signal scores are summed (a zero score adds
nothing, so conditional accumulation equals plain summation) and the total
is capped at 100. -/
def analyzeRiskScore (e m s p : ℕ) : ℕ :=
  min (e + m + s + p) 100

/-- Embeds the `risk_score` field returned by
`AdvancedHeuristicEngine.analyze_file` for a readable file, in terms of
the quantities computed from the file bytes. -/
def riskScoreOf (dataLen : ℕ) (h : ℚ) (actualType : Option String)
    (ext : String) (matchCount : ℕ) (packerFound : Bool) : ℕ :=
  analyzeRiskScore (entropyScore dataLen h) (mismatchScore actualType ext)
    (stringsScore matchCount) (packerScore packerFound dataLen h)

/-! ## File traversal (`src/core/file_traversal.py`)

The file system is modelled as a tree of named nodes; every entry exists
and is readable (the claims under study concern the depth logic, not
permissions).  Paths are part lists, as in `pathlib.Path.parts`: a direct
child entry of a directory with parts `ps` has parts `ps ++ [name]`. -/

/-- A directory entry: a plain file or a subdirectory with entries. -/
inductive FsNode where
  | file (name : String)
  | dir (name : String) (children : List FsNode)
deriving Repr

/-- Embeds `FileTraversal._is_hidden` (lines 72-82): with `skip_hidden`
set, a name starting with a dot or a dollar sign is hidden (the hidden
prefixes are single characters, so the startswith test is the
first-character test). -/
def isHiddenName (skipHidden : Bool) (name : String) : Bool :=
  skipHidden && (name.toList.head? = some '.' || name.toList.head? = some '$')

/-- Embeds `FileTraversal._is_system_dir` (lines 84-94): with `skip_system`
set, a path one of whose parts is a configured system-directory name is
skipped.  The platform-specific set (from the absent `config.py`) is a
parameter. -/
def isSystemDir (skipSystem : Bool) (sysDirs : List String)
    (parts : List String) : Bool :=
  skipSystem && parts.any (fun p => sysDirs.contains p)

/-- Extracts the lowercased extension of a file name without the dot,
approximating `Path(...).suffix.lstrip(.).lower()` (empty when the name
has no dot). -/
def extOfName (name : String) : String :=
  if name.contains '.' then
    (String.mk ((name.toList.reverse.takeWhile (fun c => c ≠ '.')).reverse)).toLower
  else ""

/-- Embeds `FileTraversal.traverse` (lines 139-234) on the tree model.
`rootParts` is the parts list of the directory currently being walked
(the recursive call of line 194 passes the subdirectory as the new root,
so the depth comparison of line 192,
`len(entry_path.parts) < len(Path(root_path).parts) + self.max_depth`,
is re-based at every level).  Returns the parts lists of the yielded
files, in source order. -/
def traverseFs (skipHidden skipSystem : Bool) (sysDirs : List String)
    (extFilter skipExts : Option (List String)) (maxDepth : Option ℕ) :
    List String → List FsNode → List (List String)
  | _, [] => []
  | rootParts, FsNode.file name :: rest =>
      let entryParts := rootParts ++ [name]
      let yield :=
        if isHiddenName skipHidden name then []       -- _should_skip
        else if (match extFilter with                  -- extensions_filter
                 | some fs => !(fs.contains (extOfName name))
                 | none => false) then []
        else if (match skipExts with                   -- skip_extensions
                 | some sk => sk.contains (extOfName name)
                 | none => false) then []
        else [entryParts]
      yield ++ traverseFs skipHidden skipSystem sysDirs extFilter skipExts
          maxDepth rootParts rest
  | rootParts, FsNode.dir name children :: rest =>
      let entryParts := rootParts ++ [name]
      let sub :=
        if isHiddenName skipHidden name
            || isSystemDir skipSystem sysDirs entryParts then []
        else
          match maxDepth with
          | none =>
              traverseFs skipHidden skipSystem sysDirs extFilter skipExts
                maxDepth entryParts children
          | some d =>
              if entryParts.length < rootParts.length + d then
                traverseFs skipHidden skipSystem sysDirs extFilter skipExts
                  maxDepth entryParts children
              else []
      sub ++ traverseFs skipHidden skipSystem sysDirs extFilter skipExts
          maxDepth rootParts rest

/-- Error kinds raised by the scan path: `FileNotFoundError` from the root
validation, `ValueError` for a non-directory root (file_traversal.py lines
160-165), and an uncaught `KeyError` from dictionary access. -/
inductive ScanError where
  | notFound
  | invalidInput
  | keyError (key : String)
deriving Repr, DecidableEq

/-- Embeds the root validation plus walk of `FileTraversal.traverse`:
a missing root raises `FileNotFoundError`; an existing root that is not a
directory raises `ValueError`; a directory root is walked. -/
def traverseRoot (skipHidden skipSystem : Bool) (sysDirs : List String)
    (extFilter skipExts : Option (List String)) (maxDepth : Option ℕ)
    (rootExists : Bool) (rootParts : List String) (root : FsNode) :
    Except ScanError (List (List String)) :=
  if !rootExists then .error .notFound
  else
    match root with
    | .file _ => .error .invalidInput
    | .dir _ children =>
        .ok (traverseFs skipHidden skipSystem sysDirs extFilter skipExts
          maxDepth rootParts children)

/-! ## Scanner and thread manager
(`src/core/scanner.py`, `src/core/multithreading.py`) -/

/-- One entry of the per-file `threats` list built by
`HEXAVGScanner._scan_file` (scanner.py lines 170-193). -/
structure ThreatEntry where
  ttype : String
  name : String
  severity : String
deriving Repr, DecidableEq

/-- One per-file result dictionary.  `threats = none` models a result
dictionary that has no `threats` key at all — which is exactly the shape
of the synthetic error results built by `ThreadManager.scan_files`
(multithreading.py lines 250-255: keys `file_path`, `error`, `status`
only) — while `_scan_file` results always carry `threats = some _`. -/
structure FileScanResult where
  filePath : String
  status : String
  threats : Option (List ThreatEntry)
  error : Option String
deriving Repr, DecidableEq

/-- Embeds `ThreadManager.scan_files` (multithreading.py lines 191-257).
`outcomes` pairs each submitted path with the outcome of its task
(`scan_func(path)`), listed in completion order; a raising task
contributes the synthetic error dictionary of lines 250-255 and the
remaining futures are still collected. -/
def scanFilesTM (outcomes : List (String × Except String FileScanResult)) :
    List FileScanResult :=
  outcomes.map (fun po =>
    match po.2 with
    | .ok r => r
    | .error e =>
        { filePath := po.1, status := "error", threats := none,
          error := some e })

/-- Running scan statistics of `HEXAVGScanner` (scanner.py lines 45-53;
timestamps omitted). -/
structure ScanStats where
  filesScanned : ℕ
  filesSkipped : ℕ
  threatsFound : ℕ
  threats : List FileScanResult
deriving Repr, DecidableEq

/-- Embeds `HEXAVGScanner._process_scan_results` (scanner.py lines
201-216): every result increments `files_scanned`; a `skipped` or `error`
status increments `files_skipped`; then `result[threats]` is accessed —
a dictionary that lacks the `threats` key raises `KeyError` at that point
and aborts the remaining processing. -/
def processScanResults : ScanStats → List FileScanResult →
    Except ScanError ScanStats
  | stats, [] => .ok stats
  | stats, r :: rest =>
      let stats1 := { stats with filesScanned := stats.filesScanned + 1 }
      let stats2 :=
        if r.status = "skipped" ∨ r.status = "error" then
          { stats1 with filesSkipped := stats1.filesSkipped + 1 }
        else stats1
      match r.threats with
      | none => .error (.keyError "threats")
      | some ts =>
          let stats3 :=
            if ts ≠ [] then
              { stats2 with threatsFound := stats2.threatsFound + 1,
                            threats := stats2.threats ++ [r] }
            else stats2
          processScanResults stats3 rest

/-- Result shape of `SignatureDetector.detect` (signature.py lines
127-179), restricted to the fields `_scan_file` reads. -/
structure SigDetection where
  detected : Bool
  name : String
  severity : String

/-- Result shape of the basic heuristic analyze call read by
`_scan_file` (scanner.py lines 177-181). -/
structure HeurAnalysis where
  suspicious : Bool
  threats : List ThreatEntry

/-- Embeds `HEXAVGScanner._scan_file` (scanner.py lines 136-199).  The
three detector slots mirror `HEXAVGScanner.__init__` lines 55-58: they are
initialized to `None` and never assigned anywhere in the class, so the
guards of lines 166, 177 and 184 see `None` in every scan.  `hashes` is
the computed hash map, `yaraMatches` the YARA rule names. -/
def scanFileGen1 (maxScanFileSize : ℕ)
    (sigDetector : Option (List (String × String) → SigDetection))
    (enableHeuristics : Bool) (heuristicDetector : Option (ℕ → HeurAnalysis))
    (enableYara : Bool) (yaraDetector : Option (List String))
    (path : String) (fileSize : ℕ) (hashes : List (String × String)) :
    FileScanResult :=
  if fileSize > maxScanFileSize then
    { filePath := path, status := "skipped", threats := some [],
      error := none }
  else
    let st0 : String := "clean"
    let th0 : List ThreatEntry := []
    -- signature-based detection (lines 166-174)
    let (st1, th1) : String × List ThreatEntry :=
      match sigDetector with
      | none => (st0, th0)
      | some det =>
          let r := det hashes
          if r.detected then
            ("infected", th0 ++ [⟨"signature", r.name, r.severity⟩])
          else (st0, th0)
    -- heuristic analysis (lines 177-181)
    let (st2, th2) : String × List ThreatEntry :=
      match enableHeuristics, heuristicDetector with
      | true, some det =>
          let r := det fileSize
          if r.suspicious then ("suspicious", th1 ++ r.threats)
          else (st1, th1)
      | _, _ => (st1, th1)
    -- YARA rules (lines 184-193)
    let (st3, th3) : String × List ThreatEntry :=
      match enableYara, yaraDetector with
      | true, some ms =>
          if ms ≠ [] then
            ("infected",
             th2 ++ ms.map (fun m => ⟨"yara", m, "high"⟩))
          else (st2, th2)
      | _, _ => (st2, th2)
    { filePath := path, status := st3, threats := some th3, error := none }

/-- Embeds `HEXAVGScanner.scan` (scanner.py lines 60-134) for the purposes
of the generation-1 pipeline: validate that the path exists, materialize
the file list through `FileTraversal.traverse` (whose root validation
raises for a non-directory), scan every file, and fold the results into
the statistics. -/
def scannerScanGen1 (sysDirs : List String) (skipExts : Option (List String))
    (rootExists : Bool) (rootParts : List String) (root : FsNode)
    (scanFile : List String → FileScanResult) :
    Except ScanError ScanStats := do
  if !rootExists then throw .notFound
  let files ← traverseRoot true true sysDirs none skipExts none
    rootExists rootParts root
  let results := scanFilesTM (files.map
    (fun f => (String.intercalate "/" f, .ok (scanFile f))))
  processScanResults ⟨0, 0, 0, []⟩ results

/-- Embeds the `--test-eicar` branch of the generation-1 `benchmark`
command (hex_avg.py lines 369-387): the EICAR string is written to
`BASE_DIR/eicar.txt` and that file path — a file, not a directory — is
passed to `HEXAVGScanner().scan`.  The freshly constructed scanner has
`signature_detector = heuristic_detector = yara_detector = None`
(scanner.py lines 55-58). -/
def benchmarkTestEicar (maxScanFileSize : ℕ) : Except ScanError ScanStats :=
  scannerScanGen1 [] none true ["hex-avg-base", "eicar.txt"]
    (FsNode.file "eicar.txt")
    (fun f => scanFileGen1 maxScanFileSize none true none false none
      (String.intercalate "/" f) eicarString.length [])

/-! ## Cloud sync client (`src/cloud/cloud_sync.py`)

Query results are Python dictionaries whose key sets matter (the
generation-3 CLI indexes them), so they are modelled as association
lists over a small value type. -/

/-- Values stored in the modelled dictionaries. -/
inductive CVal where
  | s (v : String)
  | b (v : Bool)
  | none
  | d (entries : List (String × CVal))
deriving Repr

/-- A modelled Python dictionary. -/
abbrev CDict := List (String × CVal)

/-- Looks a key up in a dictionary; a missing key is the `KeyError` the
Python subscript operator raises. -/
def dictLookup (dct : CDict) (key : String) : Except ScanError CVal :=
  match dct.find? (fun e => e.1 = key) with
  | some e => .ok e.2
  | Option.none => .error (.keyError key)

/-- Python truthiness of a modelled value. -/
def cvalTruthy : CVal → Bool
  | .s v => v ≠ ""
  | .b v => v
  | .none => false
  | .d es => !es.isEmpty

/-- The first illustrative known-malicious SHA-256 of
`CloudSyncClient._simulate_cloud_response` (cloud_sync.py lines 256-263). -/
def knownMalHash1 : String :=
  "0000000000000000000000000000000000000000000000000000000000000001"

/-- The second illustrative known-malicious SHA-256 (lines 264-270). -/
def knownMalHash2 : String :=
  "0000000000000000000000000000000000000000000000000000000000000002"

/-- The illustrative known-benign SHA-256 (lines 274-280). -/
def knownBenignHash : String :=
  "1111111111111111111111111111111111111111111111111111111111111111"

/-- Embeds `CloudSyncClient._simulate_cloud_response` (lines 248-297):
the returned classification dictionary keyed on the SHA-256 value. -/
def simulateCloudResponse (hashValue : String) : CDict :=
  if hashValue = knownMalHash1 then
    [("status", .s "malicious"),
     ("threat", .d [("threat", .s "Trojan.GenericKD.12345"),
                    ("severity", .s "high"), ("category", .s "trojan"),
                    ("first_seen", .s "2024-01-01"),
                    ("detection_rate", .s "95/100")])]
  else if hashValue = knownMalHash2 then
    [("status", .s "malicious"),
     ("threat", .d [("threat", .s "Worm.AutoRun.67890"),
                    ("severity", .s "critical"), ("category", .s "worm"),
                    ("first_seen", .s "2024-01-15"),
                    ("detection_rate", .s "98/100")])]
  else if hashValue = knownBenignHash then
    [("status", .s "benign"),
     ("info", .d [("status", .s "benign"), ("category", .s "system"),
                  ("first_seen", .s "2020-01-01")])]
  else
    [("status", .s "unknown"),
     ("message", .s "Hash not found in cloud database")]

/-- Embeds `CloudSyncClient._query_cloud` (lines 214-246): wraps the
simulated response; the simulation cannot raise, so the offline fallback
branch is unreachable here. -/
def queryCloud (sha256 : String) : CDict :=
  [("status", .s "success"), ("cloud", .b true),
   ("result", .d (simulateCloudResponse sha256))]

/-- Embeds `CloudSyncClient._query_cache` (lines 199-212) over the cache
`hashes` map. -/
def queryCache (cache : List (String × CVal)) (hashValue : String) : CDict :=
  match cache.find? (fun e => e.1 = hashValue) with
  | some e => [("status", .s "found"), ("cached", .b true), ("result", e.2)]
  | Option.none =>
      [("status", .s "not_found"), ("cached", .b true),
       ("message", .s "Hash not found in local cache")]

/-- Tests whether the `status` entry of a result dictionary is the given
string (the comparison of cloud_sync.py line 166). -/
def dictStatusIs (dct : CDict) (v : String) : Bool :=
  match dictLookup dct "status" with
  | .ok (.s w) => w = v
  | _ => false

/-- State of a `CloudSyncClient` (lines 29-33): the enabled flag, the
offline-mode flag, and the `hashes` map of the loaded cache file. -/
structure CloudClient where
  enabled : Bool
  offlineMode : Bool
  cache : List (String × CVal)

/-- Embeds `CloudSyncClient.__init__` (lines 29-33) with the default
`enabled=False` argument; `cacheHashes` is the `hashes` map parsed from
`cloud_cache.json` (empty when the file is absent or corrupt). -/
def mkCloudClient (cacheHashes : List (String × CVal)) : CloudClient :=
  { enabled := false, offlineMode := false, cache := cacheHashes }

/-- Embeds `CloudSyncClient.is_enabled` (lines 138-140). -/
def isEnabled (c : CloudClient) : Bool := c.enabled

/-- Side effects a `query_hash` call can perform, in order: reading the
file to hash it, consulting the cache, a (simulated) network lookup, and
writing the cache file. -/
inductive CloudEffect where
  | hashCompute
  | cacheRead
  | network
  | cacheWrite
deriving Repr, DecidableEq

/-- Embeds `CloudSyncClient.query_hash` (lines 142-176), returning the
result dictionary together with the list of performed effects.  The
disabled branch returns before any hashing, cache access or lookup; the
offline branch consults only the cache (the source passes `file_path`
itself to `_query_cache` there — modelled verbatim via `pathStr`); the
online branch hashes the file, checks the cache by SHA-256, and on a miss
queries the (simulated) cloud and caches the always-`success` result. -/
def queryHash (c : CloudClient) (pathStr : String) (sha256 : String) :
    CDict × List CloudEffect :=
  if !c.enabled then
    ([("status", .s "disabled"),
      ("message",
       .s "Cloud sync is disabled. Enable with: hex-avg cloud enable")], [])
  else if c.offlineMode then
    (queryCache c.cache pathStr, [.cacheRead])
  else
    let cacheResult := queryCache c.cache sha256
    if dictStatusIs cacheResult "found" then
      (cacheResult, [.hashCompute, .cacheRead])
    else
      (queryCloud sha256, [.hashCompute, .cacheRead, .network, .cacheWrite])

/-- Embeds the threat-combination expression of the generation-3 `scan`
command (cli.py lines 136-141):
`signature_result[threat_found] or risk_score >= 50 or
(ml_result and ml_result[ml_score] >= 0.7) or
(cloud_result and cloud_result[is_malicious])`, with Python left-to-right
short-circuit evaluation and dictionary subscripting that raises
`KeyError` for a missing key. -/
def isThreatGen3 (sigThreatFound : Bool) (riskScore : ℕ)
    (mlScore : Option ℚ) (cloudResult : Option CDict) :
    Except ScanError Bool :=
  if sigThreatFound then .ok true
  else if 50 ≤ riskScore then .ok true
  else if (match mlScore with
           | some sc => decide ((7 : ℚ)/10 ≤ sc)
           | Option.none => false) then .ok true
  else
    match cloudResult with
    | Option.none => .ok false
    | some dct => do
        let v ← dictLookup dct "is_malicious"
        pure (cvalTruthy v)

/-! ## Signature store (`src/detection/signature.py`)

The SQLite-backed table is modelled as a list of rows in insertion order
(`created_at DESC` listing is the reverse). -/

/-- One `signatures` table row (columns of lines 36-48, id and timestamp
omitted; insertion order stands in for `created_at`). -/
structure SignatureRecord where
  name : String
  md5 : Option String
  sha1 : Option String
  sha256 : Option String
  sigType : String
  severity : String
  description : String
deriving Repr, DecidableEq

/-- One entry of an exported JSON document: `list_signatures` (lines
191-226) selects `name, md5, sha256, type, severity, description,
created_at` — the `sha1` column is not selected and therefore absent from
exports. -/
structure ExportedSignature where
  name : String
  md5 : Option String
  sha256 : Option String
  sigType : String
  severity : String
  description : String
deriving Repr, DecidableEq

/-- Embeds `SignatureDetector.add_signature` (lines 88-125): an
unconditional insert (the in-memory model cannot fail, so the insert
always succeeds and returns the grown table). -/
def addSignature (store : List SignatureRecord) (r : SignatureRecord) :
    List SignatureRecord :=
  store ++ [r]

/-- Embeds `SignatureDetector.get_signature_count` (lines 181-189). -/
def getSignatureCount (store : List SignatureRecord) : ℕ :=
  store.length

/-- Embeds `SignatureDetector.list_signatures` (lines 191-226).  With an
integer limit, the most recent `limit` rows are returned (without the
`sha1` column).  With `limit=None` — as passed by `export_signatures`
line 239 — the Python sqlite3 binding raises
`sqlite3.IntegrityError: datatype mismatch` on the `LIMIT ?` placeholder
(NULL is not a valid limit), the surrounding `except Exception` handler
catches it, and the function returns the empty list. -/
def listSignatures (store : List SignatureRecord) (limit : Option ℕ) :
    List ExportedSignature :=
  match limit with
  | Option.none => []
  | some n =>
      ((store.reverse).take n).map (fun r =>
        { name := r.name, md5 := r.md5, sha256 := r.sha256,
          sigType := r.sigType, severity := r.severity,
          description := r.description })

/-- Embeds `SignatureDetector.export_signatures` (lines 228-252): the
`signatures` array of the written JSON document,
`list_signatures(limit=None)`. -/
def exportSignatures (store : List SignatureRecord) :
    List ExportedSignature :=
  listSignatures store Option.none

/-- Embeds `SignatureDetector.import_signatures` (lines 254-286): every
entry of the `signatures` array is inserted via `add_signature`
(`sha1` is read with `.get`, hence `None` for exported documents). -/
def importSignatures (store : List SignatureRecord)
    (doc : List ExportedSignature) : List SignatureRecord :=
  doc.foldl (fun st sig =>
    addSignature st
      { name := sig.name, md5 := sig.md5, sha1 := Option.none,
        sha256 := sig.sha256, sigType := sig.sigType,
        severity := sig.severity, description := sig.description }) store

/-- Embeds the store produced by `SignatureDetector.__init__` (lines
16-23) on a fresh (empty) backing database: the table starts empty and
`_load_eicar_signature` adds the bundled definitions (empty when no
`eicar.json` is present). -/
def freshStore (eicarSigs : List SignatureRecord) : List SignatureRecord :=
  eicarSigs.foldl addSignature []

/-- Composition of the scoring pipeline of `MLThreatScorer.score_file`
for an existing file: the features are extracted from the
advanced-heuristic signal scores of the same file (cli.py line 128 passes
`advanced_heuristic_result` as the `heuristic_result` argument). -/
def mlFeaturesFromEngine (dataLen : ℕ) (h : ℚ) (actualType : Option String)
    (ext : String) (matchCount : ℕ) (packerFound : Bool) (fileSize : ℕ)
    (suffix : String) : MLFeatures :=
  extractFeatures (entropyScore dataLen h : ℚ) (stringsScore matchCount : ℚ)
    (mismatchScore actualType ext : ℚ)
    (packerScore packerFound dataLen h : ℚ) fileSize suffix

/-- An example signature row standing for the bundled EICAR test
signature (signature.py lines 63-86). -/
def eicarSignatureRecord : SignatureRecord :=
  { name := "EICAR-Test-File", md5 := Option.none, sha1 := Option.none,
    sha256 := some "eicar-sha256-digest", sigType := "test",
    severity := "low", description := "EICAR antivirus test signature" }

/-! ## Helper lemmas -/

/-- Entropy band scores never exceed 30 points. -/
lemma entropyScore_le (dataLen : ℕ) (h : ℚ) : entropyScore dataLen h ≤ 30 := by
  unfold entropyScore
  split_ifs <;> norm_num

/-- Extension-mismatch scores never exceed 25 points. -/
lemma mismatchScore_le (actualType : Option String) (ext : String) :
    mismatchScore actualType ext ≤ 25 := by
  cases actualType with
  | none => simp [mismatchScore]
  | some t =>
    simp only [mismatchScore]
    split_ifs <;> norm_num

/-- Suspicious-string scores never exceed 25 points. -/
lemma stringsScore_le (matchCount : ℕ) : stringsScore matchCount ≤ 25 := by
  unfold stringsScore
  split_ifs <;> norm_num

/-- Packer scores never exceed 20 points. -/
lemma packerScore_le (packerFound : Bool) (dataLen : ℕ) (h : ℚ) :
    packerScore packerFound dataLen h ≤ 20 := by
  unfold packerScore
  split_ifs <;> norm_num

/-- The sigmoid is monotone. -/
lemma mlSigmoid_mono {x y : ℝ} (hxy : x ≤ y) : mlSigmoid x ≤ mlSigmoid y := by
  unfold mlSigmoid
  have hx : (0:ℝ) < 1 + Real.exp (-x) := by positivity
  have hy : (0:ℝ) < 1 + Real.exp (-y) := by positivity
  have hle : 1 + Real.exp (-y) ≤ 1 + Real.exp (-x) := by
    have := Real.exp_le_exp.mpr (neg_le_neg hxy)
    linarith
  exact one_div_le_one_div_of_le hy hle

/-- The sigmoid of 0 is one half. -/
lemma mlSigmoid_zero : mlSigmoid 0 = 1/2 := by
  unfold mlSigmoid
  simp [Real.exp_zero]
  norm_num

/-- The sigmoid of 1 is below 0.8 (because e < 4). -/
lemma mlSigmoid_one_lt : mlSigmoid 1 < 4/5 := by
  unfold mlSigmoid
  have h4 : Real.exp 1 < 4 := lt_trans Real.exp_one_lt_d9 (by norm_num)
  have hpos : (0:ℝ) < Real.exp 1 := Real.exp_pos 1
  have hinv : (1:ℝ)/4 < Real.exp (-1) := by
    rw [Real.exp_neg, ← one_div]
    exact one_div_lt_one_div_of_lt hpos h4
  have hden : (5:ℝ)/4 < 1 + Real.exp (-1) := by linarith
  calc 1 / (1 + Real.exp (-1)) < 1 / (5/4) :=
        one_div_lt_one_div_of_lt (by norm_num) hden
    _ = 4/5 := by norm_num

/-- Real-valued scores strictly between the benign and malicious
thresholds are labelled suspicious by the classifier. -/
lemma mlClassify_suspicious_of (s : ℝ) (h1 : 3/10 ≤ s) (h2 : s < 8/10) :
    (mlClassify s).1 = "suspicious" := by
  simp only [mlClassify]
  split_ifs with hM hS
  · exact absurd hM (not_le.mpr h2)
  · rfl
  · rfl

/-! ## Claim theorems -/

/-- C8: for every requested thread count T (any nonzero integer — a
requested count of 0 is falsy in Python and falls back to the configured
default, i.e. behaves as unspecified), the effective worker-pool size of
`ThreadManager.__init__` equals `max(MIN_THREADS, min(T, MAX_THREADS))`
for the configured thread bounds. -/
theorem thread_count_clamping (cfg : ThreadConfig) (t : Int) (ht : t ≠ 0) :
    effectiveMaxWorkers cfg (some t)
      = max cfg.minThreads (min t cfg.maxThreads) := by
  simp [effectiveMaxWorkers, ht]

/-- Witness for C8 at the request T = 8 with bounds [1, 16]. -/
theorem thread_count_clamping_witness :
    (8 : Int) ≠ 0 ∧
      effectiveMaxWorkers ⟨1, 16, 4⟩ (some 8) = max 1 (min 8 16) :=
  ⟨by decide, thread_count_clamping ⟨1, 16, 4⟩ 8 (by decide)⟩

/-- C7: for every ml_score in [0,1], `MLThreatScorer._classify` returns
`malicious` iff the score is at least 0.8, `suspicious` iff it lies in
[0.3, 0.8), `benign` iff it is below 0.3, and the returned confidence is
clamped to [0,1]. -/
theorem ml_classifier_thresholds (s : ℚ) (h0 : 0 ≤ s) (h1 : s ≤ 1) :
    ((mlClassify s).1 = "malicious" ↔ 8/10 ≤ s) ∧
    ((mlClassify s).1 = "suspicious" ↔ 3/10 ≤ s ∧ s < 8/10) ∧
    ((mlClassify s).1 = "benign" ↔ s < 3/10) ∧
    0 ≤ (mlClassify s).2 ∧ (mlClassify s).2 ≤ 1 := by
  have hclamp2 : ∀ c : ℚ, max 0 (min 1 c) ≤ 1 := fun c =>
    max_le (by norm_num) (min_le_left 1 c)
  simp only [mlClassify]
  split_ifs with hM hS hB
  · exact ⟨iff_of_true rfl hM,
      iff_of_false (by simp) (fun hc => by linarith [hc.2]),
      iff_of_false (by simp) (fun hc => by linarith),
      le_max_left _ _, hclamp2 _⟩
  · exact ⟨iff_of_false (by simp) hM,
      iff_of_true rfl ⟨by linarith, lt_of_not_le hM⟩,
      iff_of_false (by simp) (fun hc => by linarith),
      le_max_left _ _, hclamp2 _⟩
  · exact ⟨iff_of_false (by simp) hM,
      iff_of_true rfl ⟨hB, lt_of_not_le hM⟩,
      iff_of_false (by simp) (fun hc => by linarith),
      le_max_left _ _, hclamp2 _⟩
  · exact ⟨iff_of_false (by simp) hM,
      iff_of_false (by simp) (fun hc => hB hc.1),
      iff_of_true rfl (lt_of_not_le hB),
      le_max_left _ _, hclamp2 _⟩

/-- Witness for C7 at ml_score 1/2 (classified suspicious). -/
theorem ml_classifier_thresholds_witness :
    (0 ≤ (1/2 : ℚ) ∧ (1/2 : ℚ) ≤ 1) ∧
      ((mlClassify (1/2 : ℚ)).1 = "suspicious" ↔
        3/10 ≤ (1/2 : ℚ) ∧ (1/2 : ℚ) < 8/10) :=
  ⟨⟨by norm_num, by norm_num⟩,
   (ml_classifier_thresholds (1/2) (by norm_num) (by norm_num)).2.1⟩

/-- C6: for every readable file (any entropy value, magic-byte type,
extension, distinct-match count and packer flag), the `risk_score` of
`AdvancedHeuristicEngine.analyze_file` equals the sum of the four signal
scores capped at 100, the four signals stay within their 0-30 / 0-25 /
0-25 / 0-20 ranges, the reported score lies in [0,100], and any signal
combination whose raw point sum exceeds 100 is reported as exactly 100. -/
theorem risk_score_sum_capped (dataLen : ℕ) (h : ℚ)
    (actualType : Option String) (ext : String) (matchCount : ℕ)
    (packerFound : Bool) (e m s p : ℕ) :
    riskScoreOf dataLen h actualType ext matchCount packerFound
      = min (entropyScore dataLen h + mismatchScore actualType ext
          + stringsScore matchCount + packerScore packerFound dataLen h) 100 ∧
    entropyScore dataLen h ≤ 30 ∧
    mismatchScore actualType ext ≤ 25 ∧
    stringsScore matchCount ≤ 25 ∧
    packerScore packerFound dataLen h ≤ 20 ∧
    riskScoreOf dataLen h actualType ext matchCount packerFound ≤ 100 ∧
    (100 < e + m + s + p → analyzeRiskScore e m s p = 100) := by
  refine ⟨rfl, entropyScore_le dataLen h, mismatchScore_le actualType ext,
    stringsScore_le matchCount, packerScore_le packerFound dataLen h,
    ?_, ?_⟩
  · exact min_le_right _ _
  · intro hgt
    unfold analyzeRiskScore
    omega

/-- Witness for C6: signal points 60+50 exceed 100 and are capped. -/
theorem risk_score_sum_capped_witness :
    analyzeRiskScore 60 50 0 0 = 100 :=
  (risk_score_sum_capped 4096 8 Option.none ".txt" 0 false
    60 50 0 0).2.2.2.2.2.2 (by norm_num)

/-- Bounds on the weighted feature sum given feature bounds. -/
lemma mlWeightedSum_nonneg_le (f : MLFeatures)
    (h1 : 0 ≤ f.entropy) (h1u : f.entropy ≤ 1)
    (h2 : 0 ≤ f.suspiciousStrings) (h2u : f.suspiciousStrings ≤ 1)
    (h3 : 0 ≤ f.extensionMismatch) (h3u : f.extensionMismatch ≤ 1)
    (h4 : 0 ≤ f.packerDetected) (h4u : f.packerDetected ≤ 1)
    (h5 : 0 ≤ f.fileSizeAnomaly) (h5u : f.fileSizeAnomaly ≤ 1)
    (h6 : 0 ≤ f.rareExtension) (h6u : f.rareExtension ≤ 1) :
    0 ≤ mlWeightedSum f ∧ mlWeightedSum f ≤ 1 := by
  unfold mlWeightedSum
  constructor <;> nlinarith

/-- C3: for every existing file — whatever its entropy value, magic-byte
type, extension, distinct suspicious-string match count, packer flag, size
and suffix — the six features the ML scorer extracts from the
advanced-heuristic signals all lie in [0,1], the six weights sum to 1.0,
the weighted sum is nonnegative and at most 1, the sigmoid score lies in
[1/2, sigmoid 1] = [0.5, 1/(1+e^(-1))], and the classification is always
suspicious, never benign and never malicious. -/
theorem ml_score_always_suspicious (dataLen : ℕ) (h : ℚ)
    (actualType : Option String) (ext : String) (matchCount : ℕ)
    (packerFound : Bool) (fileSize : ℕ) (suffix : String) :
    ((featureWeights.map Prod.snd).sum = 1) ∧
    (0 ≤ (mlFeaturesFromEngine dataLen h actualType ext matchCount
        packerFound fileSize suffix).entropy ∧
      (mlFeaturesFromEngine dataLen h actualType ext matchCount
        packerFound fileSize suffix).entropy ≤ 1) ∧
    (0 ≤ (mlFeaturesFromEngine dataLen h actualType ext matchCount
        packerFound fileSize suffix).suspiciousStrings ∧
      (mlFeaturesFromEngine dataLen h actualType ext matchCount
        packerFound fileSize suffix).suspiciousStrings ≤ 1) ∧
    (0 ≤ (mlFeaturesFromEngine dataLen h actualType ext matchCount
        packerFound fileSize suffix).extensionMismatch ∧
      (mlFeaturesFromEngine dataLen h actualType ext matchCount
        packerFound fileSize suffix).extensionMismatch ≤ 1) ∧
    (0 ≤ (mlFeaturesFromEngine dataLen h actualType ext matchCount
        packerFound fileSize suffix).packerDetected ∧
      (mlFeaturesFromEngine dataLen h actualType ext matchCount
        packerFound fileSize suffix).packerDetected ≤ 1) ∧
    (0 ≤ (mlFeaturesFromEngine dataLen h actualType ext matchCount
        packerFound fileSize suffix).fileSizeAnomaly ∧
      (mlFeaturesFromEngine dataLen h actualType ext matchCount
        packerFound fileSize suffix).fileSizeAnomaly ≤ 1) ∧
    (0 ≤ (mlFeaturesFromEngine dataLen h actualType ext matchCount
        packerFound fileSize suffix).rareExtension ∧
      (mlFeaturesFromEngine dataLen h actualType ext matchCount
        packerFound fileSize suffix).rareExtension ≤ 1) ∧
    (0 ≤ mlWeightedSum (mlFeaturesFromEngine dataLen h actualType ext
        matchCount packerFound fileSize suffix) ∧
      mlWeightedSum (mlFeaturesFromEngine dataLen h actualType ext
        matchCount packerFound fileSize suffix) ≤ 1) ∧
    ((1:ℝ)/2 ≤ mlScoreOf (mlFeaturesFromEngine dataLen h actualType ext
        matchCount packerFound fileSize suffix) ∧
      mlScoreOf (mlFeaturesFromEngine dataLen h actualType ext matchCount
        packerFound fileSize suffix) ≤ mlSigmoid 1) ∧
    (mlClassify (mlScoreOf (mlFeaturesFromEngine dataLen h actualType ext
        matchCount packerFound fileSize suffix))).1 = "suspicious" ∧
    (mlClassify (mlScoreOf (mlFeaturesFromEngine dataLen h actualType ext
        matchCount packerFound fileSize suffix))).1 ≠ "benign" ∧
    (mlClassify (mlScoreOf (mlFeaturesFromEngine dataLen h actualType ext
        matchCount packerFound fileSize suffix))).1 ≠ "malicious" := by
  set f := mlFeaturesFromEngine dataLen h actualType ext matchCount
    packerFound fileSize suffix with hf
  have hent : 0 ≤ f.entropy ∧ f.entropy ≤ 1 := by
    rw [hf]
    unfold mlFeaturesFromEngine extractFeatures
    constructor
    · positivity
    · rw [div_le_one (by norm_num)]
      exact_mod_cast entropyScore_le dataLen h
  have hstr : 0 ≤ f.suspiciousStrings ∧ f.suspiciousStrings ≤ 1 := by
    rw [hf]
    unfold mlFeaturesFromEngine extractFeatures
    constructor
    · positivity
    · rw [div_le_one (by norm_num)]
      exact_mod_cast stringsScore_le matchCount
  have hmis : 0 ≤ f.extensionMismatch ∧ f.extensionMismatch ≤ 1 := by
    rw [hf]
    unfold mlFeaturesFromEngine extractFeatures
    constructor
    · positivity
    · rw [div_le_one (by norm_num)]
      exact_mod_cast mismatchScore_le actualType ext
  have hpack : 0 ≤ f.packerDetected ∧ f.packerDetected ≤ 1 := by
    rw [hf]
    unfold mlFeaturesFromEngine extractFeatures
    constructor
    · positivity
    · rw [div_le_one (by norm_num)]
      exact_mod_cast packerScore_le packerFound dataLen h
  have hsize : 0 ≤ f.fileSizeAnomaly ∧ f.fileSizeAnomaly ≤ 1 := by
    rw [hf]
    unfold mlFeaturesFromEngine extractFeatures
    split_ifs <;> norm_num
  have hrare : 0 ≤ f.rareExtension ∧ f.rareExtension ≤ 1 := by
    rw [hf]
    unfold mlFeaturesFromEngine extractFeatures
    split_ifs <;> norm_num
  have hsum : 0 ≤ mlWeightedSum f ∧ mlWeightedSum f ≤ 1 :=
    mlWeightedSum_nonneg_le f hent.1 hent.2 hstr.1 hstr.2 hmis.1 hmis.2
      hpack.1 hpack.2 hsize.1 hsize.2 hrare.1 hrare.2
  have hcast0 : (0:ℝ) ≤ ((mlWeightedSum f : ℚ) : ℝ) := by
    exact_mod_cast hsum.1
  have hcast1 : ((mlWeightedSum f : ℚ) : ℝ) ≤ 1 := by
    exact_mod_cast hsum.2
  have hlo : (1:ℝ)/2 ≤ mlScoreOf f := by
    rw [show ((1:ℝ)/2) = mlSigmoid 0 from mlSigmoid_zero.symm]
    exact mlSigmoid_mono hcast0
  have hhi : mlScoreOf f ≤ mlSigmoid 1 := mlSigmoid_mono hcast1
  have hlt : mlScoreOf f < 8/10 := by
    have := mlSigmoid_one_lt
    calc mlScoreOf f ≤ mlSigmoid 1 := hhi
      _ < 4/5 := mlSigmoid_one_lt
      _ = 8/10 := by norm_num
  have hge : (3:ℝ)/10 ≤ mlScoreOf f := by linarith
  have hsusp : (mlClassify (mlScoreOf f)).1 = "suspicious" :=
    mlClassify_suspicious_of (mlScoreOf f) hge hlt
  refine ⟨by norm_num [featureWeights], hent, hstr, hmis, hpack, hsize,
    hrare, hsum, ⟨hlo, hhi⟩, hsusp, ?_, ?_⟩
  · rw [hsusp]; decide
  · rw [hsusp]; decide

/-- C1: the embedded generation-1 `benchmark --test-eicar` flow raises
`ValueError` inside `FileTraversal.traverse` (the EICAR path is a file,
not a directory), so the scan returns no statistics at all; and
independently, `HEXAVGScanner._scan_file` with the never-assigned
(`None`) detector slots of `HEXAVGScanner.__init__` produces an empty
threat list for every file, so no `signature`-type threat entry can ever
arise. -/
theorem benchmark_eicar_selftest_fails (maxScanFileSize : ℕ) :
    benchmarkTestEicar maxScanFileSize = .error .invalidInput ∧
    (∀ (path : String) (fileSize : ℕ) (hashes : List (String × String)),
      (scanFileGen1 maxScanFileSize Option.none true Option.none false
        Option.none path fileSize hashes).threats = some []) := by
  constructor
  · rfl
  · intro path fileSize hashes
    unfold scanFileGen1
    split_ifs <;> rfl

/-- C2: with the cloud client enabled, a fresh cache and the illustrative
known-malicious SHA-256, `query_hash` returns the `success` dictionary
whose inner `result.status` is `malicious`, but that dictionary has no
`is_malicious` key, so the generation-3 threat-combination expression
raises `KeyError` instead of flagging the file. -/
theorem gen3_cloud_malicious_flag_crashes :
    (queryHash ⟨true, false, []⟩ "evil.bin" knownMalHash1).1
      = [("status", CVal.s "success"), ("cloud", CVal.b true),
         ("result", CVal.d (simulateCloudResponse knownMalHash1))] ∧
    dictStatusIs (simulateCloudResponse knownMalHash1) "malicious" = true ∧
    dictLookup (queryHash ⟨true, false, []⟩ "evil.bin" knownMalHash1).1
      "is_malicious" = .error (.keyError "is_malicious") ∧
    isThreatGen3 false 0 Option.none
      (some (queryHash ⟨true, false, []⟩ "evil.bin" knownMalHash1).1)
      = .error (.keyError "is_malicious") :=
  ⟨rfl, rfl, rfl, rfl⟩

/-- C4: with a configured maximum recursion depth of 2, the traversal of a
root containing `a/b/c/f.txt` still yields `f.txt`, which lies 4 directory
levels below the root — the depth check of file_traversal.py line 192 is
re-based on the immediate parent at every recursive call, so it does not
bound the traversal. -/
theorem traverse_depth_bound_violated :
    traverseRoot true true [] Option.none Option.none (some 2) true ["/"]
      (FsNode.dir "/"
        [FsNode.dir "a" [FsNode.dir "b" [FsNode.dir "c"
          [FsNode.file "f.txt"]]]])
      = .ok [["/", "a", "b", "c", "f.txt"]] ∧
    ¬ (["/", "a", "b", "c", "f.txt"].length ≤ ["/"].length + 2) := by
  refine ⟨?_, by norm_num⟩
  simp [traverseRoot, traverseFs, isHiddenName, isSystemDir]

/-- C5: `ThreadManager.scan_files` does return one result per submitted
path and substitutes the synthetic `status=error` dictionary for a
raising task without aborting the batch; but that synthetic dictionary
has no `threats` key, so `HEXAVGScanner._process_scan_results` — after
counting the error result in `files_skipped` — raises `KeyError` on it,
aborting the statistics processing and the overall scan. -/
theorem scan_files_synthetic_error_breaks_stats :
    (∀ outcomes : List (String × Except String FileScanResult),
      (scanFilesTM outcomes).length = outcomes.length) ∧
    scanFilesTM
      [("a.txt", Except.error "boom"),
       ("b.txt", Except.ok ⟨"b.txt", "clean", some [], Option.none⟩)]
      = [⟨"a.txt", "error", Option.none, some "boom"⟩,
         ⟨"b.txt", "clean", some [], Option.none⟩] ∧
    processScanResults ⟨0, 0, 0, []⟩
      [⟨"a.txt", "error", Option.none, some "boom"⟩,
       ⟨"b.txt", "clean", some [], Option.none⟩]
      = .error (.keyError "threats") := by
  refine ⟨fun outcomes => ?_, rfl, rfl⟩
  simp [scanFilesTM]

/-- C9: the store holding one signature exports an empty `signatures`
array (`list_signatures(limit=None)` hits the sqlite datatype-mismatch
error on the NULL `LIMIT` parameter and returns `[]`), so importing the
export into a freshly initialized empty store yields a count of 0, not
the original 1. -/
theorem signature_export_import_count_lost :
    getSignatureCount (addSignature (freshStore []) eicarSignatureRecord)
      = 1 ∧
    exportSignatures (addSignature (freshStore []) eicarSignatureRecord)
      = [] ∧
    getSignatureCount
      (importSignatures (freshStore [])
        (exportSignatures
          (addSignature (freshStore []) eicarSignatureRecord))) = 0 ∧
    (0 : ℕ) ≠ 1 :=
  ⟨rfl, rfl, rfl, by norm_num⟩

/-- C10: a freshly constructed cloud client reports `is_enabled() =
false`, and while any client is disabled, `query_hash` returns the
`disabled` status with a guidance message and performs no hash
computation, no cache access and no network activity (its effect list is
empty). -/
theorem cloud_disabled_query_inert (cacheHashes : List (String × CVal))
    (c : CloudClient) (hc : isEnabled c = false) (p sha : String) :
    isEnabled (mkCloudClient cacheHashes) = false ∧
    queryHash c p sha
      = ([("status", CVal.s "disabled"),
          ("message",
           CVal.s "Cloud sync is disabled. Enable with: hex-avg cloud enable")],
         []) := by
  have hce : c.enabled = false := hc
  refine ⟨rfl, ?_⟩
  simp [queryHash, hce]

/-- Witness for C10 at a freshly constructed client with an empty cache. -/
theorem cloud_disabled_query_inert_witness :
    isEnabled (mkCloudClient []) = false ∧
    (queryHash (mkCloudClient []) "f.bin" "sha").2 = [] := by
  refine ⟨(cloud_disabled_query_inert [] (mkCloudClient []) rfl
    "f.bin" "sha").1, ?_⟩
  have hq := (cloud_disabled_query_inert [] (mkCloudClient []) rfl
    "f.bin" "sha").2
  rw [hq]

end HexAvg
